import Mathlib

/-!
Verification of the billing-statement engine of a small transaction-manager
application (`streamlit_transaction_manager.py`).

The embedding models:
* calendar dates and datetimes (Python `datetime`, proleptic Gregorian
  calendar with the standard leap-year rule);
* the billing-period computation inlined in `export_pdf` (lines 79-91);
* the SQL row filter of `export_pdf` (lines 93-98): stored timestamps are
  ISO-8601 strings and `BETWEEN` compares them lexicographically, which for
  these strings coincides with chronological order, so the filter is
  modelled as a datetime-interval test;
* the debit aggregation (line 99), the description formatting (line 115)
  and `delete_transaction` (lines 65-68).

Monetary amounts (SQLite `REAL`) are modelled as rationals: the claims
under study concern which amounts are summed, not floating-point rounding.
-/

/-- The Gregorian leap-year rule used by Python's `datetime`. -/
def isLeap (y : Int) : Bool := y % 4 == 0 && (y % 100 != 0 || y % 400 == 0)

/-- Number of days of month `m` of year `y` (months numbered 1..12). -/
def daysInMonth (y : Int) (m : Nat) : Nat :=
  if m = 2 then (if isLeap y then 29 else 28)
  else if m = 4 ∨ m = 6 ∨ m = 9 ∨ m = 11 then 30
  else 31

/-- A calendar date, as in Python's `datetime.date` part. -/
structure Date where
  year : Int
  month : Nat
  day : Nat
deriving DecidableEq

/-- A structurally well-formed calendar date. -/
def Date.Valid (d : Date) : Prop :=
  1 ≤ d.month ∧ d.month ≤ 12 ∧ 1 ≤ d.day ∧ d.day ≤ daysInMonth d.year d.month

instance (d : Date) : Decidable d.Valid := by
  unfold Date.Valid
  infer_instance

/-- The day after `d` (the successor used by `timedelta` arithmetic). -/
def nextDay (d : Date) : Date :=
  if d.day < daysInMonth d.year d.month then ⟨d.year, d.month, d.day + 1⟩
  else if d.month < 12 then ⟨d.year, d.month + 1, 1⟩
  else ⟨d.year + 1, 1, 1⟩

/-- `d + timedelta(days = n)`. -/
def addDays (d : Date) : Nat → Date
  | 0 => d
  | n + 1 => nextDay (addDays d n)

/-- Order-reflecting key of a date: for well-formed dates (month ≤ 12 and
day ≤ 31) it orders dates chronologically, since `month * 32 + day < 512`. -/
def key (d : Date) : Int := d.year * 512 + (d.month : Int) * 32 + (d.day : Int)

/-- Chronological order on dates (via the key). -/
def dateLe (a b : Date) : Prop := key a ≤ key b

/-- Strict chronological order on dates (via the key). -/
def dateLt (a b : Date) : Prop := key a < key b

/-- Billing-period start, from `export_pdf` lines 80-86: the 13th of the
current month when `today.day >= 13`, otherwise the 13th of the previous
month (December of the previous year when the month is January). -/
def bill_start (today : Date) : Date :=
  if today.day ≥ 13 then ⟨today.year, today.month, 13⟩
  else if today.month = 1 then ⟨today.year - 1, 12, 13⟩
  else ⟨today.year, today.month - 1, 13⟩

/-- Billing-period end, from `export_pdf` lines 88-90: the 12th of
`bill_start.month % 12 + 1`, with the year bumped when that wraps to 1. -/
def bill_end (today : Date) : Date :=
  let s := bill_start today
  let next_month := s.month % 12 + 1
  let year := s.year + (if next_month = 1 then 1 else 0)
  ⟨year, next_month, 12⟩

/-- Due date, from `export_pdf` line 91: `bill_start + timedelta(days=50)`. -/
def due_date (today : Date) : Date := addDays (bill_start today) 50

/- ### Basic calendar lemmas -/

theorem daysInMonth_bounds (y : Int) (m : Nat) :
    28 ≤ daysInMonth y m ∧ daysInMonth y m ≤ 31 := by
  unfold daysInMonth
  split
  · split <;> omega
  · split <;> omega

theorem nextDay_valid (d : Date) (h : d.Valid) : (nextDay d).Valid := by
  obtain ⟨h1, h2, h3, h4⟩ := h
  have hb := daysInMonth_bounds d.year d.month
  have hb2 := daysInMonth_bounds d.year (d.month + 1)
  have hb3 := daysInMonth_bounds (d.year + 1) 1
  unfold nextDay
  split
  · unfold Date.Valid
    dsimp only
    omega
  · split
    · unfold Date.Valid
      dsimp only
      omega
    · unfold Date.Valid
      dsimp only
      omega

theorem key_lt_nextDay (d : Date) (h : d.Valid) : key d < key (nextDay d) := by
  obtain ⟨h1, h2, h3, h4⟩ := h
  have hb := daysInMonth_bounds d.year d.month
  unfold nextDay key
  split
  · dsimp only
    omega
  · split
    · dsimp only
      omega
    · dsimp only
      omega

theorem addDays_valid (d : Date) (h : d.Valid) (n : Nat) : (addDays d n).Valid := by
  induction n with
  | zero => exact h
  | succ n ih => exact nextDay_valid _ ih

theorem key_le_addDays (d : Date) (h : d.Valid) (n : Nat) :
    key d ≤ key (addDays d n) := by
  induction n with
  | zero => exact le_refl _
  | succ n ih =>
    exact le_trans ih (le_of_lt (key_lt_nextDay _ (addDays_valid d h n)))

theorem key_lt_addDays (d : Date) (h : d.Valid) (n : Nat) (hn : 0 < n) :
    key d < key (addDays d n) := by
  obtain ⟨m, rfl⟩ : ∃ m, n = m + 1 := ⟨n - 1, by omega⟩
  exact lt_of_le_of_lt (key_le_addDays d h m) (key_lt_nextDay _ (addDays_valid d h m))

theorem addDays_add (d : Date) (a b : Nat) :
    addDays d (a + b) = addDays (addDays d a) b := by
  induction b with
  | zero => rfl
  | succ b ih =>
    show nextDay (addDays d (a + b)) = nextDay (addDays (addDays d a) b)
    rw [ih]

theorem addDays_within (y : Int) (m day k : Nat)
    (hk : day + k ≤ daysInMonth y m) :
    addDays ⟨y, m, day⟩ k = ⟨y, m, day + k⟩ := by
  induction k with
  | zero => rfl
  | succ k ih =>
    show nextDay (addDays ⟨y, m, day⟩ k) = _
    rw [ih (by omega)]
    unfold nextDay
    rw [if_pos (by dsimp only; omega)]
    dsimp only
    rw [Nat.add_assoc]

theorem addDays_from_13 (y : Int) (m : Nat) (h1 : 1 ≤ m) (h2 : m ≤ 12) :
    addDays ⟨y, m, 13⟩ (daysInMonth y m - 1) =
      if m = 12 then (⟨y + 1, 1, 12⟩ : Date) else ⟨y, m + 1, 12⟩ := by
  have hb := daysInMonth_bounds y m
  have hsplit : daysInMonth y m - 1 = (daysInMonth y m - 13) + 1 + 11 := by omega
  rw [hsplit, addDays_add, addDays_add]
  rw [addDays_within y m 13 (daysInMonth y m - 13) (by omega)]
  have h13 : 13 + (daysInMonth y m - 13) = daysInMonth y m := by omega
  rw [h13]
  show addDays (nextDay ⟨y, m, daysInMonth y m⟩) 11 = _
  unfold nextDay
  rw [if_neg (by dsimp only; omega)]
  by_cases hm : m = 12
  · subst hm
    rw [if_neg (by dsimp only; omega), if_pos rfl]
    have := daysInMonth_bounds (y + 1) 1
    have h11 := addDays_within (y + 1) 1 1 11 (by omega)
    simpa using h11
  · rw [if_pos (by dsimp only; omega), if_neg hm]
    have := daysInMonth_bounds y (m + 1)
    have h11 := addDays_within y (m + 1) 1 11 (by omega)
    simpa using h11

theorem bill_start_day (d : Date) : (bill_start d).day = 13 := by
  unfold bill_start
  split
  · rfl
  · split <;> rfl

theorem bill_start_month_bounds (d : Date) (h : d.Valid) :
    1 ≤ (bill_start d).month ∧ (bill_start d).month ≤ 12 := by
  obtain ⟨h1, h2, h3, h4⟩ := h
  unfold bill_start
  split
  · exact ⟨h1, h2⟩
  · split
    · dsimp only
      omega
    · dsimp only
      omega

theorem bill_start_valid (d : Date) (h : d.Valid) : (bill_start d).Valid := by
  obtain ⟨hm1, hm2⟩ := bill_start_month_bounds d h
  have hb := daysInMonth_bounds (bill_start d).year (bill_start d).month
  exact ⟨hm1, hm2, by rw [bill_start_day]; omega, by rw [bill_start_day]; omega⟩

/-- The billing-period end is what one reaches from the period start after
`daysInMonth - 1` single-day steps: one month minus one day later. -/
theorem bill_end_eq_addDays (d : Date) (h : d.Valid) :
    bill_end d =
      addDays (bill_start d) (daysInMonth (bill_start d).year (bill_start d).month - 1) := by
  obtain ⟨hm1, hm2⟩ := bill_start_month_bounds d h
  have hday := bill_start_day d
  have heta : bill_start d = ⟨(bill_start d).year, (bill_start d).month, 13⟩ := by
    rw [← hday]
  rw [heta]
  rw [addDays_from_13 (bill_start d).year (bill_start d).month hm1 hm2]
  unfold bill_end
  dsimp only
  by_cases hm : (bill_start d).month = 12
  · rw [if_pos hm, hm]
    norm_num
  · rw [if_neg hm]
    have hmod : (bill_start d).month % 12 = (bill_start d).month :=
      Nat.mod_eq_of_lt (by omega)
    rw [hmod]
    rw [if_neg (by omega)]
    norm_num

/- ### Datetimes, transactions and the statement engine -/

/-- A timestamp: a date plus a time-of-day (microseconds since midnight).
Stored transaction timestamps are `datetime.now().isoformat()` strings and
the SQL `BETWEEN` compares them lexicographically, which on such strings
coincides with this (date, time-of-day) lexicographic order. -/
structure DateTime where
  date : Date
  tod : Nat
deriving DecidableEq

/-- Chronological order on timestamps: lexicographic on (date key, time). -/
def dtLe (a b : DateTime) : Prop :=
  key a.date < key b.date ∨ (key a.date = key b.date ∧ a.tod ≤ b.tod)

instance (a b : DateTime) : Decidable (dtLe a b) := by
  unfold dtLe
  infer_instance

/-- Boolean form of `dtLe`, used inside list filters. -/
def dtLeb (a b : DateTime) : Bool := decide (dtLe a b)

/-- A row of the `transactions` table (`type` is the `credit`/`debit` tag). -/
structure Transaction where
  id : Nat
  user_id : Nat
  amount : ℚ
  type : String
  description : String
  timestamp : DateTime
deriving DecidableEq

/-- A row of the `users` table (fields used by `export_pdf`). -/
structure User where
  id : Nat
  name : String
  email : String
deriving DecidableEq

/-- `delete_transaction` (lines 65-68): `DELETE FROM transactions WHERE
id = ? AND user_id = ?`, keeping every row not matching both keys. -/
def delete_transaction (store : List Transaction) (user_id transaction_id : Nat) :
    List Transaction :=
  store.filter (fun t => !(t.id == transaction_id && t.user_id == user_id))

/-- `bill_start` as the code actually uses it in the SQL bound:
`today.replace(day=13, ...)` keeps `today`'s time-of-day. -/
def bill_start_dt (today : DateTime) : DateTime := ⟨bill_start today.date, today.tod⟩

/-- `bill_end` as the code uses it in the SQL bound: `datetime(year, month, 12)`
is midnight (the first instant) of the period-end day. -/
def bill_end_dt (today : DateTime) : DateTime := ⟨bill_end today.date, 0⟩

/-- The row selection of `export_pdf` (lines 93-98): the user's transactions
with `timestamp BETWEEN bill_start.isoformat() AND bill_end.isoformat()`,
both bounds inclusive under the timestamp order. -/
def fetch_statement_transactions (store : List Transaction) (uid : Nat)
    (today : DateTime) : List Transaction :=
  store.filter (fun t =>
    t.user_id == uid
      && dtLeb (bill_start_dt today) t.timestamp
      && dtLeb t.timestamp (bill_end_dt today))

/-- The aggregation of line 99: `sum(t[0] for t in transactions if t[1] == 'debit')`. -/
def total_due (store : List Transaction) (uid : Nat) (today : DateTime) : ℚ :=
  (((fetch_statement_transactions store uid today).filter
    (fun t => t.type == "debit")).map Transaction.amount).sum

/-- The statement value assembled by `export_pdf` before rendering. -/
structure Statement where
  user_name : String
  user_email : String
  period_start : Date
  period_end : Date
  statement_due : Date
  line_items : List Transaction
  total : ℚ
deriving DecidableEq

/-- The pure computation performed by `export_pdf` for a given user and
reference datetime over a given store. -/
def make_statement (store : List Transaction) (user : User) (today : DateTime) :
    Statement :=
  { user_name := user.name
    user_email := user.email
    period_start := bill_start today.date
    period_end := bill_end today.date
    statement_due := due_date today.date
    line_items := fetch_statement_transactions store user.id today
    total := total_due store user.id today }

/-- The description formatting of line 115:
`(t[2][:30] + '...') if len(t[2]) > 33 else t[2]`. -/
def format_description (s : String) : String :=
  if s.length > 33 then s.take 30 ++ "..." else s

/-- Modelled from the spec: the window selection as §4.2 words it, since no
code under `src/` implements it this way — the claim compares the code's
filter against this reading: transactions whose timestamp's *date* lies
between the period-start date and the period-end date (start-of-day for
`start`, through the last instant of `end`'s day). -/
def spec_window_transactions (store : List Transaction) (uid : Nat)
    (today : DateTime) : List Transaction :=
  store.filter (fun t =>
    t.user_id == uid
      && decide (key (bill_start today.date) ≤ key t.timestamp.date)
      && decide (key t.timestamp.date ≤ key (bill_end today.date)))

/- ### Helper lemmas about the list operations -/

/-- Pre-filtering by `q` does not change a later `r`-filter when `r`
implies `q` pointwise. -/
theorem filter_pre_absorb (l : List Transaction) (p q r : Transaction → Bool)
    (h : ∀ t, r t = true → q t = true) :
    ((l.filter q).filter p).filter r = (l.filter p).filter r := by
  induction l with
  | nil => rfl
  | cons t l ih =>
    simp only [List.filter_cons]
    by_cases hq : q t = true
    · rw [if_pos hq]
      simp only [List.filter_cons]
      by_cases hp : p t = true
      · rw [if_pos hp, if_pos hp]
        simp only [List.filter_cons]
        rw [ih]
      · rw [if_neg hp, if_neg hp]
        exact ih
    · rw [if_neg hq]
      by_cases hp : p t = true
      · rw [if_pos hp]
        simp only [List.filter_cons]
        rw [if_neg (fun hr => hq (h t hr))]
        exact ih
      · rw [if_neg hp]
        exact ih

theorem mem_delete_transaction_iff (store : List Transaction) (uid tid : Nat)
    (tx : Transaction) :
    tx ∈ delete_transaction store uid tid ↔
      tx ∈ store ∧ ¬(tx.id = tid ∧ tx.user_id = uid) := by
  unfold delete_transaction
  rw [List.mem_filter]
  simp only [Bool.not_eq_true', Bool.and_eq_false_iff, beq_eq_false_iff_ne,
    ne_eq, not_and]
  constructor
  · rintro ⟨hm, h | h⟩
    · exact ⟨hm, fun h1 _ => h h1⟩
    · exact ⟨hm, fun _ h2 => h h2⟩
  · rintro ⟨hm, h⟩
    refine ⟨hm, ?_⟩
    by_cases h1 : tx.id = tid
    · exact Or.inr (h h1)
    · exact Or.inl h1

/- ### Claim theorems -/

/-- C1: for every calendar date `today`, if `today.day >= 13` the period
start is the 13th of today's month and year; otherwise it is the 13th of
the previous month, and when today's month is January the previous month
is December of the previous year. -/
theorem c1_period_start (d : Date) :
    (13 ≤ d.day → bill_start d = ⟨d.year, d.month, 13⟩)
    ∧ (d.day < 13 → d.month = 1 → bill_start d = ⟨d.year - 1, 12, 13⟩)
    ∧ (d.day < 13 → d.month ≠ 1 → bill_start d = ⟨d.year, d.month - 1, 13⟩) := by
  unfold bill_start
  refine ⟨?_, ?_, ?_⟩
  · intro h
    rw [if_pos h]
  · intro h1 h2
    rw [if_neg (by omega), if_pos h2]
  · intro h1 h2
    rw [if_neg (by omega), if_neg h2]

/-- Witness for C1 at three concrete dates, one per branch. -/
theorem c1_period_start_witness :
    bill_start ⟨2024, 12, 20⟩ = ⟨2024, 12, 13⟩
    ∧ bill_start ⟨2024, 1, 5⟩ = ⟨2023, 12, 13⟩
    ∧ bill_start ⟨2024, 3, 10⟩ = ⟨2024, 2, 13⟩ :=
  ⟨(c1_period_start ⟨2024, 12, 20⟩).1 (by decide),
   (c1_period_start ⟨2024, 1, 5⟩).2.1 (by decide) (by decide),
   (c1_period_start ⟨2024, 3, 10⟩).2.2 (by decide) (by decide)⟩

/-- C2: for every calendar date `today`, the period end is the 12th of the
month immediately following the period-start month, with the year
incremented exactly when the period-start month is December. -/
theorem c2_period_end (d : Date) (h : d.Valid) :
    ((bill_start d).month < 12 →
      bill_end d = ⟨(bill_start d).year, (bill_start d).month + 1, 12⟩)
    ∧ ((bill_start d).month = 12 →
      bill_end d = ⟨(bill_start d).year + 1, 1, 12⟩) := by
  obtain ⟨hm1, hm2⟩ := bill_start_month_bounds d h
  unfold bill_end
  dsimp only
  constructor
  · intro hm
    rw [Nat.mod_eq_of_lt hm, if_neg (by omega)]
    norm_num
  · intro hm
    rw [hm]
    norm_num

/-- Witness for C2 at a mid-year date and a December date. -/
theorem c2_period_end_witness :
    bill_end ⟨2024, 3, 10⟩ = ⟨2024, 3, 12⟩
    ∧ bill_end ⟨2024, 12, 20⟩ = ⟨2025, 1, 12⟩ :=
  ⟨(c2_period_end ⟨2024, 3, 10⟩ (by decide)).1 (by decide),
   (c2_period_end ⟨2024, 12, 20⟩ (by decide)).2 (by decide)⟩

/-- C3: for every valid calendar date `today`, the due date is the period
start plus exactly 50 calendar days, and `start <= end < due_date` holds in
chronological order. -/
theorem c3_due_date (d : Date) (h : d.Valid) :
    due_date d = addDays (bill_start d) 50
    ∧ dateLe (bill_start d) (bill_end d)
    ∧ dateLt (bill_end d) (due_date d) := by
  have hv := bill_start_valid d h
  have hb := bill_end_eq_addDays d h
  have hD := daysInMonth_bounds (bill_start d).year (bill_start d).month
  refine ⟨rfl, ?_, ?_⟩
  · show key (bill_start d) ≤ key (bill_end d)
    rw [hb]
    exact key_le_addDays _ hv _
  · show key (bill_end d) < key (due_date d)
    have h50 : (daysInMonth (bill_start d).year (bill_start d).month - 1)
        + (51 - daysInMonth (bill_start d).year (bill_start d).month) = 50 := by
      omega
    have hdue : due_date d = addDays (bill_end d)
        (51 - daysInMonth (bill_start d).year (bill_start d).month) := by
      unfold due_date
      rw [← h50, addDays_add, ← hb]
    rw [hdue]
    have hev : (bill_end d).Valid := by
      rw [hb]
      exact addDays_valid _ hv _
    exact key_lt_addDays _ hev _ (by omega)

/-- Witness for C3 at `today = 2024-12-20`. -/
theorem c3_due_date_witness :
    due_date ⟨2024, 12, 20⟩ = addDays (bill_start ⟨2024, 12, 20⟩) 50
    ∧ dateLe (bill_start ⟨2024, 12, 20⟩) (bill_end ⟨2024, 12, 20⟩)
    ∧ dateLt (bill_end ⟨2024, 12, 20⟩) (due_date ⟨2024, 12, 20⟩) :=
  c3_due_date ⟨2024, 12, 20⟩ (by decide)

set_option maxRecDepth 4000 in
/-- C5 as stated is false: for `today = 2024-12-20` the code's due date is
not 2025-01-31 (the start and end do match the claim). -/
theorem c5_counterexample :
    ¬(bill_start ⟨2024, 12, 20⟩ = ⟨2024, 12, 13⟩
      ∧ bill_end ⟨2024, 12, 20⟩ = ⟨2025, 1, 12⟩
      ∧ due_date ⟨2024, 12, 20⟩ = ⟨2025, 1, 31⟩) := by
  decide

set_option maxRecDepth 4000 in
/-- C5 amended: for `today = 2024-12-20` the computed period is
`period_start = 2024-12-13`, `period_end = 2025-01-12`, and
`due_date = 2025-02-01` (2024-12-13 plus 50 days). -/
theorem c5_scenario :
    bill_start ⟨2024, 12, 20⟩ = ⟨2024, 12, 13⟩
    ∧ bill_end ⟨2024, 12, 20⟩ = ⟨2025, 1, 12⟩
    ∧ due_date ⟨2024, 12, 20⟩ = ⟨2025, 2, 1⟩ := by
  decide

/-- C10: for every valid calendar date `today`, the reference date lies
inside the computed billing period: `period_start <= today <= period_end`. -/
theorem c10_today_in_period (d : Date) (h : d.Valid) :
    dateLe (bill_start d) d ∧ dateLe d (bill_end d) := by
  obtain ⟨h1, h2, h3, h4⟩ := h
  have hb := daysInMonth_bounds d.year d.month
  constructor
  · show key (bill_start d) ≤ key d
    unfold bill_start key
    split
    · dsimp only
      omega
    · split
      · dsimp only
        omega
      · dsimp only
        omega
  · show key d ≤ key (bill_end d)
    unfold bill_end bill_start key
    dsimp only
    split_ifs
    all_goals dsimp only at *
    all_goals omega

/-- Witness for C10 at `today = 2024-12-20`. -/
theorem c10_today_in_period_witness :
    dateLe (bill_start ⟨2024, 12, 20⟩) ⟨2024, 12, 20⟩
    ∧ dateLe (⟨2024, 12, 20⟩ : Date) (bill_end ⟨2024, 12, 20⟩) :=
  c10_today_in_period ⟨2024, 12, 20⟩ (by decide)

set_option maxRecDepth 4000 in
/-- C4 as stated is false: the code's row selection is not the date-level
window of the spec. A transaction stamped one microsecond after midnight on
the period-end day (2025-01-12, for `today = 2024-12-20`) is inside the
spec's window but excluded by the code, whose upper bound is midnight of
the period-end day. -/
theorem c4_counterexample :
    fetch_statement_transactions
        [⟨1, 7, 5, "debit", "x", ⟨⟨2025, 1, 12⟩, 1⟩⟩] 7 ⟨⟨2024, 12, 20⟩, 0⟩
      ≠ spec_window_transactions
        [⟨1, 7, 5, "debit", "x", ⟨⟨2025, 1, 12⟩, 1⟩⟩] 7 ⟨⟨2024, 12, 20⟩, 0⟩ := by
  decide

/-- C4 amended: the line items are exactly the user's transactions whose
timestamp lies between `bill_start` carrying `today`'s time-of-day and
midnight (the first instant) of the period-end day, both bounds inclusive —
not start-of-day to end-of-day. -/
theorem c4_line_items (store : List Transaction) (uid : Nat) (today : DateTime)
    (tx : Transaction) :
    tx ∈ fetch_statement_transactions store uid today ↔
      tx ∈ store ∧ tx.user_id = uid
        ∧ dtLe (bill_start_dt today) tx.timestamp
        ∧ dtLe tx.timestamp (bill_end_dt today) := by
  unfold fetch_statement_transactions
  rw [List.mem_filter]
  simp only [Bool.and_eq_true, beq_iff_eq, dtLeb, decide_eq_true_eq, and_assoc]

/-- C6: the total due is the sum of the amounts of the debit line items;
dropping every credit from the store leaves it unchanged, so credits never
reduce it; an empty line-item list gives a total due of 0; and a credit row
of the user inside the window still appears among the line items. -/
theorem c6_total_due (store : List Transaction) (uid : Nat) (today : DateTime) :
    total_due store uid today =
      (((fetch_statement_transactions store uid today).filter
        (fun t => t.type == "debit")).map Transaction.amount).sum
    ∧ total_due (store.filter (fun t => !(t.type == "credit"))) uid today
        = total_due store uid today
    ∧ (fetch_statement_transactions store uid today = [] →
        total_due store uid today = 0)
    ∧ (∀ tx : Transaction, tx ∈ store → tx.type = "credit" → tx.user_id = uid →
        dtLe (bill_start_dt today) tx.timestamp →
        dtLe tx.timestamp (bill_end_dt today) →
        tx ∈ fetch_statement_transactions store uid today) := by
  refine ⟨rfl, ?_, ?_, ?_⟩
  · unfold total_due fetch_statement_transactions
    rw [filter_pre_absorb]
    intro t ht
    rw [beq_iff_eq] at ht
    rw [ht]
    rfl
  · intro h
    unfold total_due
    rw [h]
    rfl
  · intro tx hmem _ huser hlo hhi
    unfold fetch_statement_transactions
    rw [List.mem_filter]
    refine ⟨hmem, ?_⟩
    simp only [Bool.and_eq_true, beq_iff_eq, dtLeb, decide_eq_true_eq]
    exact ⟨⟨huser, hlo⟩, hhi⟩

/-- Witness for C6: the empty store gives the empty statement with total 0,
and an in-window credit row is listed. -/
theorem c6_total_due_witness :
    total_due [] 7 ⟨⟨2024, 12, 20⟩, 0⟩ = 0
    ∧ (⟨1, 7, 5, "credit", "x", ⟨⟨2024, 12, 14⟩, 0⟩⟩ : Transaction) ∈
        fetch_statement_transactions
          [⟨1, 7, 5, "credit", "x", ⟨⟨2024, 12, 14⟩, 0⟩⟩] 7 ⟨⟨2024, 12, 20⟩, 0⟩ :=
  ⟨(c6_total_due [] 7 ⟨⟨2024, 12, 20⟩, 0⟩).2.2.1 rfl,
   (c6_total_due [⟨1, 7, 5, "credit", "x", ⟨⟨2024, 12, 14⟩, 0⟩⟩] 7
      ⟨⟨2024, 12, 20⟩, 0⟩).2.2.2 _ (List.mem_singleton.mpr rfl) rfl rfl
      (by decide) (by decide)⟩

/-- C7: statement generation is deterministic — two statements computed
from the same store, user and reference datetime are identical (hence same
header fields, same line items in the same order, same total due). -/
theorem c7_deterministic (store : List Transaction) (user : User)
    (today : DateTime) (st1 st2 : Statement)
    (h1 : st1 = make_statement store user today)
    (h2 : st2 = make_statement store user today) :
    st1 = st2 ∧ st1.line_items = st2.line_items ∧ st1.total = st2.total := by
  subst h1
  subst h2
  exact ⟨rfl, rfl, rfl⟩

/-- Witness for C7 at a concrete store, user and datetime. -/
theorem c7_deterministic_witness :
    make_statement [] ⟨7, "a", "b"⟩ ⟨⟨2024, 12, 20⟩, 0⟩
      = make_statement [] ⟨7, "a", "b"⟩ ⟨⟨2024, 12, 20⟩, 0⟩ :=
  (c7_deterministic [] ⟨7, "a", "b"⟩ ⟨⟨2024, 12, 20⟩, 0⟩ _ _ rfl rfl).1

/-- C8: the formatted description is the original when it has at most 33
characters, and its first 30 characters followed by the ellipsis marker
otherwise. -/
theorem c8_format_description (s : String) :
    (s.length ≤ 33 → format_description s = s)
    ∧ (33 < s.length → format_description s = s.take 30 ++ "...") := by
  unfold format_description
  constructor
  · intro h
    rw [if_neg (by omega)]
  · intro h
    rw [if_pos h]

/-- Witness for C8 on a short and a 40-character description. -/
theorem c8_format_description_witness :
    format_description "groceries" = "groceries"
    ∧ format_description "0123456789012345678901234567890123456789"
        = ("0123456789012345678901234567890123456789").take 30 ++ "..." :=
  ⟨(c8_format_description "groceries").1 (by decide),
   (c8_format_description "0123456789012345678901234567890123456789").2 (by decide)⟩

/-- C9: `delete_transaction` removes a row only when both the id and the
claimed owner match: any row still in the store survives when its owner
differs or its id differs, and a row that disappears must have matched
both. -/
theorem c9_delete_transaction (store : List Transaction) (uid tid : Nat)
    (tx : Transaction) (hmem : tx ∈ store) :
    ((tx.user_id ≠ uid ∨ tx.id ≠ tid) → tx ∈ delete_transaction store uid tid)
    ∧ (tx ∉ delete_transaction store uid tid →
        tx.id = tid ∧ tx.user_id = uid) := by
  constructor
  · intro h
    rw [mem_delete_transaction_iff]
    refine ⟨hmem, ?_⟩
    rintro ⟨hid, huser⟩
    rcases h with h | h
    · exact h huser
    · exact h hid
  · intro hnot
    by_contra hc
    rw [Decidable.not_and_iff_or_not] at hc
    refine hnot ((mem_delete_transaction_iff store uid tid tx).2 ⟨hmem, ?_⟩)
    rintro ⟨hid, huser⟩
    rcases hc with h | h
    · exact h hid
    · exact h huser

/-- Witness for C9: a row of user 7 survives a deletion claimed by user 9. -/
theorem c9_delete_transaction_witness :
    (⟨1, 7, 5, "debit", "x", ⟨⟨2024, 12, 13⟩, 0⟩⟩ : Transaction) ∈
      delete_transaction [⟨1, 7, 5, "debit", "x", ⟨⟨2024, 12, 13⟩, 0⟩⟩] 9 1 :=
  (c9_delete_transaction _ 9 1 _ (List.mem_singleton.mpr rfl)).1
    (Or.inl (by decide))
